import Mathlib

/-!
Shallow embedding of `src/uqbar.py`, a batch query script that maps a list
of Ethereum address strings to on-chain `uqAlloc` values.

The external Web3 layer (address syntax check, checksum normalization, and
the contract call itself) is modelled as an environment record `Env`; the
core logic of the script (`validate_address`, `query_uq_alloc`, the batch
loop and summary computation in `main`) is translated directly from the
Python source.
-/

namespace Uqbar

/-- Outcome of one call to `Web3.is_address`: either it returns a boolean,
or it raises an exception (the bare `except:` in `validate_address` catches
anything). -/
inductive IsAddressOutcome where
  | returns (b : Bool)
  | raises (detail : String)
deriving DecidableEq, Repr

/-- Outcome of one call to `contract.functions.uqAlloc(addr).call()`:
either an unsigned integer (the ABI output type is `uint256`, decoded by
web3.py to a non-negative Python int, hence `Nat`), or one of the three
exception classes caught in `query_uq_alloc`: `ContractLogicError`,
`Web3Exception`, or any other `Exception`. -/
inductive CallOutcome where
  | success (allocation : Nat)
  | contractLogicError (detail : String)
  | web3Exception (detail : String)
  | otherException (detail : String)
deriving DecidableEq, Repr

/-- The external Web3 collaborator, as seen by the core: a deterministic
record of what `Web3.is_address`, `Web3.to_checksum_address`, and the
contract call return for each argument string. -/
structure Env where
  is_address : String → IsAddressOutcome
  to_checksum_address : String → String
  call : String → CallOutcome

/-- One row of the `results` list in the script: the tuple
`(address, allocation, status)` returned by `query_uq_alloc`.
`allocation` is `Int` because the field is a Python int; the source only
ever stores the decoded `uint256` or the literal `0` in it. -/
structure QueryResult where
  address : String
  allocation : Int
  status : String
deriving DecidableEq, Repr

/-- `validate_address` from the source: calls `Web3.is_address` and turns
any exception into `False`.

    def validate_address(address: str) -> bool:
        try:
            return Web3.is_address(address)
        except:
            return False
-/
def validate_address (env : Env) (address : String) : Bool :=
  match env.is_address address with
  | .returns b => b
  | .raises _ => false

/-- `query_uq_alloc` from the source: validate, checksum, call, and map
each exception class to its status string; every failure carries
allocation `0`. The source's local variable `checksum_address` is the
value `env.to_checksum_address address`, written inline here since the
modelled checksum function is pure. -/
def query_uq_alloc (env : Env) (address : String) : QueryResult :=
  if validate_address env address = false then
    ⟨address, 0, "Invalid address format"⟩
  else
    match env.call (env.to_checksum_address address) with
    | .success allocation =>
        ⟨env.to_checksum_address address, (allocation : Int), "Success"⟩
    | .contractLogicError e => ⟨address, 0, "Contract error: " ++ e⟩
    | .web3Exception e => ⟨address, 0, "Web3 error: " ++ e⟩
    | .otherException e => ⟨address, 0, "Error: " ++ e⟩

/-- The query loop of `main`: one `query_uq_alloc` call per input address,
appended in input order.

    for i, address in enumerate(addresses, 1):
        result = query_uq_alloc(contract, address)
        results.append(result)
-/
def runBatch (env : Env) (addresses : List String) : List QueryResult :=
  addresses.map (query_uq_alloc env)

/-- `successful_queries` from `main`:
`sum(1 for _, _, status in results if status == "Success")`. -/
def successful_queries (results : List QueryResult) : Nat :=
  (results.filter (fun r => r.status == "Success")).length

/-- `total_allocation` from `main`:
`sum(allocation for _, allocation, status in results if status == "Success")`. -/
def total_allocation (results : List QueryResult) : Int :=
  ((results.filter (fun r => r.status == "Success")).map
    (fun r => r.allocation)).sum

/-- The four figures printed in the summary block of `main`. -/
structure RunSummary where
  total_addresses : Nat
  successful : Nat
  failed : Nat
  total_alloc : Int
deriving DecidableEq, Repr

/-- Overall outcome of `main` on a resolved address list: either the fatal
`"No addresses to query"` exit (before any connection or call), or a
completed run with its results list and summary. -/
inductive RunOutcome where
  | fatalNoAddresses
  | completed (results : List QueryResult) (summary : RunSummary)
deriving DecidableEq, Repr

/-- `main` from the source, after input resolution: the empty-list check
(`if not addresses: sys.exit(1)`), the query loop, and the summary
computation. -/
def main (env : Env) (addresses : List String) : RunOutcome :=
  if addresses.isEmpty then
    .fatalNoAddresses
  else
    let results := runBatch env addresses
    .completed results
      ⟨results.length,
        successful_queries results,
        results.length - successful_queries results,
        total_allocation results⟩

/-- A concrete environment used to instantiate the hypotheses of the
claim theorems: one valid address, one address on which `is_address`
raises, and a contract that answers `1000` for the checksummed valid
address and reverts otherwise. -/
def testEnv : Env where
  is_address := fun a =>
    if a = "0xabc" then .returns true
    else if a = "0xboom" then .raises "boom"
    else .returns false
  to_checksum_address := fun a => if a = "0xabc" then "0xABC" else a
  call := fun a =>
    if a = "0xABC" then .success 1000
    else .contractLogicError "execution reverted"

/-- A second concrete environment whose contract call fails on the wire,
used to instantiate transport-failure hypotheses. -/
def testEnvDown : Env where
  is_address := testEnv.is_address
  to_checksum_address := testEnv.to_checksum_address
  call := fun _ => .web3Exception "timeout"

/- String facts used to separate the status kinds: two strings whose first
characters differ are distinct, whatever the appended detail text is. -/

theorem mk_append_ne (c d : Char) (s t u : List Char) (hcd : c ≠ d) :
    String.mk (c :: s) ++ String.mk u ≠ String.mk (d :: t) := by
  intro h
  have h2 : c :: (s ++ u) = d :: t := congrArg String.data h
  exact hcd (List.cons.inj h2).1

theorem contract_error_ne_success (e : String) :
    "Contract error: " ++ e ≠ "Success" := by
  cases e with
  | mk l => exact mk_append_ne 'C' 'S' _ _ l (by decide)

theorem web3_error_ne_success (e : String) :
    "Web3 error: " ++ e ≠ "Success" := by
  cases e with
  | mk l => exact mk_append_ne 'W' 'S' _ _ l (by decide)

theorem plain_error_ne_success (e : String) :
    "Error: " ++ e ≠ "Success" := by
  cases e with
  | mk l => exact mk_append_ne 'E' 'S' _ _ l (by decide)

theorem contract_error_ne_web3_error (e1 e2 : String) :
    "Contract error: " ++ e1 ≠ "Web3 error: " ++ e2 := by
  cases e1 with
  | mk l =>
    cases e2 with
    | mk l2 => exact mk_append_ne 'C' 'W' _ _ l (by decide)

theorem contract_error_ne_plain_error (e1 e2 : String) :
    "Contract error: " ++ e1 ≠ "Error: " ++ e2 := by
  cases e1 with
  | mk l =>
    cases e2 with
    | mk l2 => exact mk_append_ne 'C' 'E' _ _ l (by decide)

theorem web3_error_ne_plain_error (e1 e2 : String) :
    "Web3 error: " ++ e1 ≠ "Error: " ++ e2 := by
  cases e1 with
  | mk l =>
    cases e2 with
    | mk l2 => exact mk_append_ne 'W' 'E' _ _ l (by decide)

/-- If `main` completes, the results list is exactly the batch loop's
output and the summary is the one computed from it. -/
theorem main_completed_eq (env : Env) (addresses : List String)
    (results : List QueryResult) (summary : RunSummary)
    (h : main env addresses = .completed results summary) :
    results = runBatch env addresses ∧
    summary = ⟨results.length, successful_queries results,
      results.length - successful_queries results, total_allocation results⟩ := by
  unfold main at h
  split at h
  · exact absurd h (by simp)
  · injection h with h1 h2
    subst h1
    subst h2
    exact ⟨rfl, rfl⟩

/-- C1: for every input list, `main` produces exactly one `QueryResult`
per input address, in the same order: result `i` is the query of input
address `i`. -/
theorem uq_c1_results_length_and_order (env : Env) (addresses : List String)
    (results : List QueryResult) (summary : RunSummary)
    (h : main env addresses = .completed results summary) :
    results.length = addresses.length ∧
    ∀ i : Nat, results[i]? = (addresses[i]?).map (query_uq_alloc env) := by
  obtain ⟨h1, -⟩ := main_completed_eq env addresses results summary h
  subst h1
  refine ⟨by simp [runBatch], fun i => ?_⟩
  simp [runBatch]

theorem uq_c1_witness :
    ([(⟨"0xABC", 1000, "Success"⟩ : QueryResult),
        ⟨"nope", 0, "Invalid address format"⟩].length
      = ["0xabc", "nope"].length) ∧
    ([(⟨"0xABC", 1000, "Success"⟩ : QueryResult),
        ⟨"nope", 0, "Invalid address format"⟩][0]?
      = ((["0xabc", "nope"] : List String)[0]?).map (query_uq_alloc testEnv)) := by
  have h := uq_c1_results_length_and_order testEnv ["0xabc", "nope"]
    [⟨"0xABC", 1000, "Success"⟩, ⟨"nope", 0, "Invalid address format"⟩]
    ⟨2, 1, 1, 1000⟩ (by decide)
  exact ⟨h.1, h.2 0⟩

/-- C3: the run summary's `total_allocation` is the sum of allocations
over "Success" results, `successful` is the count of "Success" results,
and `failed` is the total result count minus `successful`. -/
theorem uq_c3_summary_fields (env : Env) (addresses : List String)
    (results : List QueryResult) (summary : RunSummary)
    (h : main env addresses = .completed results summary) :
    summary.total_alloc =
      ((results.filter (fun r => r.status == "Success")).map
        (fun r => r.allocation)).sum ∧
    summary.successful =
      (results.filter (fun r => r.status == "Success")).length ∧
    summary.failed = results.length - summary.successful := by
  obtain ⟨-, h2⟩ := main_completed_eq env addresses results summary h
  subst h2
  exact ⟨rfl, rfl, rfl⟩

theorem uq_c3_witness :
    (RunSummary.mk 2 1 1 1000).total_alloc =
      (([(⟨"0xABC", 1000, "Success"⟩ : QueryResult),
          ⟨"nope", 0, "Invalid address format"⟩].filter
            (fun r => r.status == "Success")).map
        (fun r => r.allocation)).sum ∧
    (RunSummary.mk 2 1 1 1000).successful =
      ([(⟨"0xABC", 1000, "Success"⟩ : QueryResult),
          ⟨"nope", 0, "Invalid address format"⟩].filter
            (fun r => r.status == "Success")).length ∧
    (RunSummary.mk 2 1 1 1000).failed =
      [(⟨"0xABC", 1000, "Success"⟩ : QueryResult),
          ⟨"nope", 0, "Invalid address format"⟩].length -
        (RunSummary.mk 2 1 1 1000).successful :=
  uq_c3_summary_fields testEnv ["0xabc", "nope"]
    [⟨"0xABC", 1000, "Success"⟩, ⟨"nope", 0, "Invalid address format"⟩]
    ⟨2, 1, 1, 1000⟩ (by decide)

/-- C2: in every completed run, a result with status "Success" has a
non-negative allocation, and a result with any other status has
allocation `0`. -/
theorem uq_c2_success_alloc_nonneg_failure_zero (env : Env)
    (addresses : List String) (results : List QueryResult)
    (summary : RunSummary)
    (h : main env addresses = .completed results summary)
    (r : QueryResult) (hr : r ∈ results) :
    (r.status = "Success" → 0 ≤ r.allocation) ∧
    (r.status ≠ "Success" → r.allocation = 0) := by
  obtain ⟨h1, -⟩ := main_completed_eq env addresses results summary h
  subst h1
  simp only [runBatch, List.mem_map] at hr
  obtain ⟨a, -, rfl⟩ := hr
  unfold query_uq_alloc
  split
  · exact ⟨fun _ => le_refl 0, fun _ => rfl⟩
  · split
    · exact ⟨fun _ => Int.natCast_nonneg _, fun hne => absurd rfl hne⟩
    · exact ⟨fun _ => le_refl 0, fun _ => rfl⟩
    · exact ⟨fun _ => le_refl 0, fun _ => rfl⟩
    · exact ⟨fun _ => le_refl 0, fun _ => rfl⟩

theorem uq_c2_witness :
    ((⟨"0xABC", 1000, "Success"⟩ : QueryResult).status = "Success" →
      0 ≤ (⟨"0xABC", 1000, "Success"⟩ : QueryResult).allocation) ∧
    ((⟨"0xABC", 1000, "Success"⟩ : QueryResult).status ≠ "Success" →
      (⟨"0xABC", 1000, "Success"⟩ : QueryResult).allocation = 0) :=
  uq_c2_success_alloc_nonneg_failure_zero testEnv ["0xabc", "nope"]
    [⟨"0xABC", 1000, "Success"⟩, ⟨"nope", 0, "Invalid address format"⟩]
    ⟨2, 1, 1, 1000⟩ (by decide) ⟨"0xABC", 1000, "Success"⟩ (by decide)

/-- C4: when an input address fails validation, its result slot holds
`⟨address, 0, "Invalid address format"⟩`, the outcome is independent of
the contract-call collaborator (no call is attempted), and every other
input position still gets its own per-address result. -/
theorem uq_c4_invalid_address_no_call (env : Env) (addresses : List String)
    (i : Nat) (a : String) (ha : addresses[i]? = some a)
    (hv : validate_address env a = false) :
    (runBatch env addresses)[i]? =
      some ⟨a, 0, "Invalid address format"⟩ ∧
    (∀ other_call,
      query_uq_alloc ⟨env.is_address, env.to_checksum_address, other_call⟩ a
        = ⟨a, 0, "Invalid address format"⟩) ∧
    (∀ j : Nat, (runBatch env addresses)[j]? =
      (addresses[j]?).map (query_uq_alloc env)) := by
  have hq : query_uq_alloc env a = ⟨a, 0, "Invalid address format"⟩ := by
    unfold query_uq_alloc
    rw [hv]
    rfl
  refine ⟨?_, ?_, fun j => by simp [runBatch]⟩
  · simp [runBatch, ha, hq]
  · intro other_call
    have hv2 : validate_address
        ⟨env.is_address, env.to_checksum_address, other_call⟩ a = false := hv
    unfold query_uq_alloc
    rw [hv2]
    rfl

theorem uq_c4_witness :
    (runBatch testEnv ["nope", "0xabc"])[0]? =
      some ⟨"nope", 0, "Invalid address format"⟩ ∧
    query_uq_alloc
      ⟨testEnv.is_address, testEnv.to_checksum_address, testEnvDown.call⟩
      "nope" = ⟨"nope", 0, "Invalid address format"⟩ := by
  have h := uq_c4_invalid_address_no_call testEnv ["nope", "0xabc"] 0 "nope"
    (by decide) (by decide)
  exact ⟨h.1, h.2.1 testEnvDown.call⟩

/-- C5: a failure recorded at one position of the batch never aborts the
run: the results list still has one entry per input address, and every
position (in particular every later one) holds the per-address query
result of its own input address. -/
theorem uq_c5_failure_never_aborts (env : Env) (addresses : List String)
    (i : Nat) (r : QueryResult)
    (hi : (runBatch env addresses)[i]? = some r)
    (hfail : r.status ≠ "Success") :
    (runBatch env addresses).length = addresses.length ∧
    ∀ j : Nat, (runBatch env addresses)[j]? =
      (addresses[j]?).map (query_uq_alloc env) :=
  ⟨by simp [runBatch], fun j => by simp [runBatch]⟩

theorem uq_c5_witness :
    (runBatch testEnv ["nope", "0xabc"]).length =
      (["nope", "0xabc"] : List String).length ∧
    (runBatch testEnv ["nope", "0xabc"])[1]? =
      ((["nope", "0xabc"] : List String)[1]?).map (query_uq_alloc testEnv) := by
  have h := uq_c5_failure_never_aborts testEnv ["nope", "0xabc"] 0
    ⟨"nope", 0, "Invalid address format"⟩ (by decide) (by decide)
  exact ⟨h.1, h.2 1⟩

/-- C8: on an empty input list, the run terminates fatally before any
connection or contract call, producing no `QueryResult` list and no
summary; this holds for every environment, so nothing external is
consulted. -/
theorem uq_c8_empty_input_fatal (env : Env) :
    main env [] = RunOutcome.fatalNoAddresses := rfl

/-- C6: on a validated address, each of the three exception classes from
the call is surfaced as a result with allocation `0` and a status built
from that class's marker plus the detail text, and the three markers
produce pairwise distinct status strings whatever the details are. -/
theorem uq_c6_classified_errors (env : Env) (a : String)
    (hv : validate_address env a = true) :
    (∀ e, env.call (env.to_checksum_address a) = .contractLogicError e →
      query_uq_alloc env a = ⟨a, 0, "Contract error: " ++ e⟩) ∧
    (∀ e, env.call (env.to_checksum_address a) = .web3Exception e →
      query_uq_alloc env a = ⟨a, 0, "Web3 error: " ++ e⟩) ∧
    (∀ e, env.call (env.to_checksum_address a) = .otherException e →
      query_uq_alloc env a = ⟨a, 0, "Error: " ++ e⟩) ∧
    (∀ e1 e2, "Contract error: " ++ e1 ≠ "Web3 error: " ++ e2) ∧
    (∀ e1 e2, "Contract error: " ++ e1 ≠ "Error: " ++ e2) ∧
    (∀ e1 e2, "Web3 error: " ++ e1 ≠ "Error: " ++ e2) := by
  refine ⟨fun e hc => ?_, fun e hc => ?_, fun e hc => ?_,
    contract_error_ne_web3_error, contract_error_ne_plain_error,
    web3_error_ne_plain_error⟩ <;>
  · unfold query_uq_alloc
    rw [hv, hc]
    rfl

theorem uq_c6_witness :
    query_uq_alloc testEnvDown "0xabc" =
      ⟨"0xabc", 0, "Web3 error: timeout"⟩ := by
  have h := uq_c6_classified_errors testEnvDown "0xabc" (by decide)
  exact h.2.1 "timeout" (by decide)

/-- C7: the validator is a total boolean function: for any input string
it returns `true` or `false`, an exception inside `Web3.is_address` is
absorbed into `false` rather than propagated, and a normal boolean answer
is passed through unchanged. -/
theorem uq_c7_validator_total (env : Env) (a : String) :
    (validate_address env a = true ∨ validate_address env a = false) ∧
    (∀ msg, env.is_address a = .raises msg →
      validate_address env a = false) ∧
    (∀ b, env.is_address a = .returns b → validate_address env a = b) := by
  refine ⟨?_, fun msg hmsg => ?_, fun b hb => ?_⟩
  · cases h : validate_address env a
    · exact Or.inr rfl
    · exact Or.inl rfl
  · unfold validate_address
    rw [hmsg]
  · unfold validate_address
    rw [hb]

theorem uq_c7_witness : validate_address testEnv "0xboom" = false :=
  (uq_c7_validator_total testEnv "0xboom").2.1 "boom" (by decide)

/-- C9: the same address appearing at two positions of the same run
yields the same `QueryResult` at both positions (the per-address query is
a pure function of the environment and the address). -/
theorem uq_c9_idempotent (env : Env) (addresses : List String)
    (i j : Nat) (a : String)
    (hi : addresses[i]? = some a) (hj : addresses[j]? = some a) :
    (runBatch env addresses)[i]? = some (query_uq_alloc env a) ∧
    (runBatch env addresses)[j]? = some (query_uq_alloc env a) ∧
    (runBatch env addresses)[i]? = (runBatch env addresses)[j]? := by
  have h1 : (runBatch env addresses)[i]? = some (query_uq_alloc env a) := by
    simp [runBatch, hi]
  have h2 : (runBatch env addresses)[j]? = some (query_uq_alloc env a) := by
    simp [runBatch, hj]
  exact ⟨h1, h2, h1.trans h2.symm⟩

theorem uq_c9_witness :
    (runBatch testEnv ["0xabc", "0xabc"])[0]? =
      some (query_uq_alloc testEnv "0xabc") ∧
    (runBatch testEnv ["0xabc", "0xabc"])[1]? =
      some (query_uq_alloc testEnv "0xabc") ∧
    (runBatch testEnv ["0xabc", "0xabc"])[0]? =
      (runBatch testEnv ["0xabc", "0xabc"])[1]? :=
  uq_c9_idempotent testEnv ["0xabc", "0xabc"] 0 1 "0xabc"
    (by decide) (by decide)

/-- C10: a result carries the checksummed canonical address exactly on
success — status "Success" holds precisely when validation passed and the
call returned an integer, and then the address field is the checksum
form; on every failure (invalid input or any failed call) the address
field is the original input string unchanged. -/
theorem uq_c10_address_field (env : Env) (a : String) :
    ((query_uq_alloc env a).status = "Success" →
      (query_uq_alloc env a).address = env.to_checksum_address a) ∧
    ((query_uq_alloc env a).status ≠ "Success" →
      (query_uq_alloc env a).address = a) ∧
    ((query_uq_alloc env a).status = "Success" ↔
      validate_address env a = true ∧
      ∃ n, env.call (env.to_checksum_address a) = .success n) := by
  unfold query_uq_alloc
  split
  · rename_i hvf
    have hns : ("Invalid address format" : String) ≠ "Success" := by decide
    refine ⟨fun hs => absurd hs hns, fun _ => rfl, ?_, ?_⟩
    · intro hs
      exact absurd hs hns
    · rintro ⟨hv, -⟩
      exact absurd (hv.symm.trans hvf) (by decide)
  · rename_i hvt
    have hv : validate_address env a = true := by
      revert hvt
      cases validate_address env a <;> simp
    split
    · rename_i n hc
      exact ⟨fun _ => rfl, fun hne => absurd rfl hne,
        fun _ => ⟨hv, n, hc⟩, fun _ => rfl⟩
    · rename_i e hc
      refine ⟨fun hs => absurd hs (contract_error_ne_success e),
        fun _ => rfl, fun hs => absurd hs (contract_error_ne_success e),
        ?_⟩
      rintro ⟨-, n, hn⟩
      exact CallOutcome.noConfusion (hc.symm.trans hn)
    · rename_i e hc
      refine ⟨fun hs => absurd hs (web3_error_ne_success e),
        fun _ => rfl, fun hs => absurd hs (web3_error_ne_success e), ?_⟩
      rintro ⟨-, n, hn⟩
      exact CallOutcome.noConfusion (hc.symm.trans hn)
    · rename_i e hc
      refine ⟨fun hs => absurd hs (plain_error_ne_success e),
        fun _ => rfl, fun hs => absurd hs (plain_error_ne_success e), ?_⟩
      rintro ⟨-, n, hn⟩
      exact CallOutcome.noConfusion (hc.symm.trans hn)

theorem uq_c10_witness :
    (query_uq_alloc testEnvDown "0xboom").address = "0xboom" :=
  (uq_c10_address_field testEnvDown "0xboom").2.1 (by decide)

end Uqbar
